import Mathlib

/-!
# Verification of the alarm-audio-detector core pipeline

A shallow embedding in Lean 4 of the core detection pipeline of the
`alarm-audio-detector` repository, together with theorems settling the
frozen claims about it.

Embedded components (file ↦ section below):
* `detector/models.py`      ↦ `Range`, `Segment`, `AlarmProfile`
* `detector/events.py`      ↦ `ToneEvent`, `AudioEvent`, `PatternMatchEvent`
* `detector/matcher.py`     ↦ `MatcherState`, `updateProfile`, `SequenceMatcher.process`
* `detector/generator.py`   ↦ `ActiveTone`, `EventGenerator.process`
* `detector/dsp.py`         ↦ `Peak`, `SpectralMonitor.processWith`
* `detector/analyzer.py`    ↦ `SpectralAnalyzer.analyze`
* `detector/yaml_loader.py` ↦ `parseProfile`

Numeric conventions: Python floats are embedded as exact rationals `ℚ`;
NumPy's real-valued FFT — a floating-point transform of the raw samples —
is not shallowly embeddable, so `SpectralMonitor` is embedded from the
magnitude spectrum onward, with the spectrum-producing front end
(`np.abs(np.fft.rfft(windowed))`, dsp.py lines 48–52) abstracted as an
explicit function argument `fftMag`.  Everything downstream of the
spectrum is translated statement-by-statement from the source.
-/

namespace AlarmDetector

/-! ## detector/models.py -/

/-- `models.Range`: a numeric range `(min, max)`. -/
structure Range where
  min : ℚ
  max : ℚ
deriving Repr, DecidableEq

/-- `Range.contains`: `self.min <= value <= self.max` (models.py line 15). -/
def Range.containsB (r : Range) (v : ℚ) : Bool :=
  decide (r.min ≤ v) && decide (v ≤ r.max)

/-- `models.Segment`: one step in an alarm pattern.  The `type` field is a
Python string literal (`"tone" | "silence" | "any"`); `frequency` is
`Optional[Range]` (default `None`), `min_magnitude` defaults to `0.05` and
`duration` to `Range(0, 999)`. -/
structure Segment where
  type : String
  frequency : Option Range := none
  min_magnitude : ℚ := 5/100
  duration : Range := ⟨0, 999⟩
deriving Repr, DecidableEq

/-- `models.AlarmProfile`: named alarm pattern definition. -/
structure AlarmProfile where
  name : String
  segments : List Segment
  confirmation_cycles : ℕ := 1
  reset_timeout : ℚ := 10
deriving Repr, DecidableEq

/-! ## detector/events.py -/

/-- `events.ToneEvent`: a finalized detected tone. -/
structure ToneEvent where
  timestamp : ℚ
  duration : ℚ
  frequency : ℚ
  magnitude : ℚ
  confidence : ℚ
deriving Repr, DecidableEq

/-- `events.AudioEvent` hierarchy: the matcher receives either a
`ToneEvent` or a `SilenceEvent` (which carries only the base-class fields
`timestamp` and `duration`).  Python uses subclassing and
`isinstance`; the embedding uses an inductive type. -/
inductive AudioEvent where
  | tone (e : ToneEvent)
  | silence (timestamp duration : ℚ)
deriving Repr, DecidableEq

/-- `events.PatternMatchEvent`: terminal pipeline output. -/
structure PatternMatchEvent where
  timestamp : ℚ
  duration : ℚ
  profile_name : String
  cycle_count : ℕ
deriving Repr, DecidableEq

/-! ## detector/matcher.py -/

/-- `matcher.MatcherState`: progress of a single profile match
(the unused `start_time` field is omitted). -/
structure MatcherState where
  current_segment_index : ℕ
  cycle_count : ℕ
  last_event_time : ℚ
deriving Repr, DecidableEq

/-- `MatcherState.reset` (matcher.py lines 24–27). -/
def MatcherState.resetS : MatcherState := ⟨0, 0, 0⟩

/-- Default segment used with `List.getD`; Python indexes
`p.segments[i]` directly, and every theorem below carries the bound that
makes the two agree. -/
def dfltSeg : Segment := { type := "any" }

/-- Helper for `expected.frequency.contains(event.frequency)`
(matcher.py line 123).  Python would raise `AttributeError` when
`frequency is None`; the embedding returns `false` there, and theorems
about tone matching restrict to profiles whose tone segments carry a
frequency (`WellFormed` below), where the two semantics agree. -/
def freqContainsB : Option Range → ℚ → Bool
  | some r, v => r.containsB v
  | none, _ => false

/-- `freq_match and dur_match` for a tone segment
(matcher.py lines 123–126 and 139–143). -/
def toneFits (seg : Segment) (e : ToneEvent) : Bool :=
  freqContainsB seg.frequency e.frequency && seg.duration.containsB e.duration

/-- Result of one `_update_profile` call.  `state` and `emitted` are the
mutated state and the returned `Optional[PatternMatchEvent]`.
`completedCycle` is pure instrumentation mirroring the debug log at
matcher.py lines 96–98 / 156–158: `some k` exactly when the segment index
wrapped past the last segment during the call, `k` being the value of
`cycle_count` right after its increment (the number of consecutive
completed cycles); it does not influence `state` or `emitted`. -/
structure StepResult where
  state : MatcherState
  emitted : Option PatternMatchEvent
  completedCycle : Option ℕ
deriving Repr, DecidableEq

/-- The index-wraparound block, written once in the embedding because the
source repeats it verbatim (matcher.py lines 93–107 for the silence
branch and 153–167 for the tone branch): if the incremented index ran
past the last segment, increment `cycle_count`, loop the index back to 0
and, when the confirmation threshold is reached, zero `cycle_count` and
emit a `PatternMatchEvent`. -/
def wrapAdvance (p : AlarmProfile) (s : MatcherState) (ts : ℚ) : StepResult :=
  if p.segments.length ≤ s.current_segment_index then
    if p.confirmation_cycles ≤ s.cycle_count + 1 then
      ⟨{ s with current_segment_index := 0, cycle_count := 0 },
        some ⟨ts, 0, p.name, p.confirmation_cycles⟩, some (s.cycle_count + 1)⟩
    else
      ⟨{ s with current_segment_index := 0, cycle_count := s.cycle_count + 1 }, none,
        some (s.cycle_count + 1)⟩
  else ⟨s, none, none⟩

/-- Matcher.py lines 147–150: on `is_match`, record
`last_event_time = event.timestamp + event.duration`, advance the index
and run the wraparound block. -/
def advanceMatched (p : AlarmProfile) (s : MatcherState) (e : ToneEvent) : StepResult :=
  wrapAdvance p
    { s with last_event_time := e.timestamp + e.duration,
             current_segment_index := s.current_segment_index + 1 }
    e.timestamp

/-- The implicit-silence (gap) phase of `_update_profile`
(matcher.py lines 81–119): when the expected segment is a silence, the
gap `event.timestamp - state.last_event_time` must fit its duration range
to advance (possibly wrapping); a wrong gap at index > 0 hard-resets the
state. -/
def silencePhase (p : AlarmProfile) (s : MatcherState) (e : ToneEvent) : StepResult :=
  let expected := p.segments.getD s.current_segment_index dfltSeg
  let gap := e.timestamp - s.last_event_time
  if expected.type = "silence" then
    if expected.duration.containsB gap then
      wrapAdvance p { s with current_segment_index := s.current_segment_index + 1 }
        e.timestamp
    else if 0 < s.current_segment_index then ⟨MatcherState.resetS, none, none⟩
    else ⟨s, none, none⟩
  else ⟨s, none, none⟩

/-- The tone phase of `_update_profile` (matcher.py lines 121–167): the
(possibly just-advanced) expected segment, if a tone, must contain the
event's frequency and duration; a mismatch at index > 0 fully resets the
state and immediately re-tests the same event against segment 0. -/
def tonePhase (p : AlarmProfile) (s : MatcherState) (e : ToneEvent) : StepResult :=
  let expected := p.segments.getD s.current_segment_index dfltSeg
  if expected.type = "tone" then
    if toneFits expected e then advanceMatched p s e
    else if 0 < s.current_segment_index then
      let seg0 := p.segments.getD 0 dfltSeg
      if seg0.type = "tone" && toneFits seg0 e then
        advanceMatched p MatcherState.resetS e
      else ⟨MatcherState.resetS, none, none⟩
    else ⟨s, none, none⟩
  else ⟨s, none, none⟩

/-- `SequenceMatcher._update_profile` (matcher.py lines 52–169),
instrumented with `completedCycle`.  Control flow: clamp an out-of-range
index to 0 (lines 58–60); non-`ToneEvent`s fall through every branch and
return `None` with the state otherwise untouched; for a `ToneEvent`, run
the silence phase — an emission there returns immediately (line 102) —
then the tone phase.  Note the dead timeout block at lines 64–74 is a
`pass`: no `reset_timeout` logic exists in the source. -/
def updateProfileX (p : AlarmProfile) (s : MatcherState) (e : AudioEvent) : StepResult :=
  let s0 := if p.segments.length ≤ s.current_segment_index then
    { s with current_segment_index := 0 } else s
  match e with
  | .silence _ _ => ⟨s0, none, none⟩
  | .tone te =>
    let r1 := silencePhase p s0 te
    match r1.emitted with
    | some ev => ⟨r1.state, some ev, r1.completedCycle⟩
    | none =>
      let r2 := tonePhase p r1.state te
      ⟨r2.state, r2.emitted, r1.completedCycle <|> r2.completedCycle⟩

/-- `SequenceMatcher._update_profile`: the state/event part of
`updateProfileX`. -/
def updateProfile (p : AlarmProfile) (s : MatcherState) (e : AudioEvent) :
    MatcherState × Option PatternMatchEvent :=
  let r := updateProfileX p s e
  (r.state, r.emitted)

/-- `SequenceMatcher.process` (matcher.py lines 39–50): run
`_update_profile` for every profile in order, collecting the matches.
The Python `states` dict keyed by (unique) profile name is embedded as a
positional list of `(profile, state)` pairs. -/
def SequenceMatcher.process (l : List (AlarmProfile × MatcherState)) (e : AudioEvent) :
    List PatternMatchEvent × List (AlarmProfile × MatcherState) :=
  l.foldl
    (fun acc pr =>
      let r := updateProfile pr.1 pr.2 e
      (acc.1 ++ (r.2.toList), acc.2 ++ [(pr.1, r.1)]))
    ([], [])

/-- Driving a `SequenceMatcher` over a whole event stream, accumulating
every emitted `PatternMatchEvent` (the loop every caller of
`SequenceMatcher.process` performs). -/
def runEvents (l : List (AlarmProfile × MatcherState)) (es : List AudioEvent) :
    List PatternMatchEvent × List (AlarmProfile × MatcherState) :=
  es.foldl
    (fun acc e =>
      let r := SequenceMatcher.process acc.2 e
      (acc.1 ++ r.1, r.2))
    ([], l)

/-- The emission contract of one `_update_profile` call on a tone event
at time `ts`: a `PatternMatchEvent` is returned exactly when this call
wrapped the segment index past the last segment for the
`confirmation_cycles`-th consecutive time (`completedCycle`), and at that
moment both `current_segment_index` and `cycle_count` are reset to 0,
the event carrying the profile name and the confirmation count. -/
def EmitSpec (p : AlarmProfile) (ts : ℚ) (r : StepResult) : Prop :=
  (r.emitted.isSome ↔ r.completedCycle = some p.confirmation_cycles)
  ∧ ∀ ev, r.emitted = some ev →
      r.state.current_segment_index = 0 ∧ r.state.cycle_count = 0
      ∧ ev = ⟨ts, 0, p.name, p.confirmation_cycles⟩

/-- A profile is well formed when every tone segment carries a frequency
range — exactly the profiles on which Python's
`expected.frequency.contains(...)` does not raise. -/
def WellFormed (p : AlarmProfile) : Prop :=
  ∀ seg ∈ p.segments, seg.type = "tone" → seg.frequency ≠ none

/-- The four-segment test profile of the spec and of
`tests/test_universal.py`: 1 kHz (0.4–0.6 s), gap 0.1–0.3 s, 2 kHz
(0.4–0.6 s), gap 0.8–1.2 s, `confirmation_cycles = 2`. -/
def complexSiren : AlarmProfile :=
  { name := "ComplexSiren"
    segments :=
      [ { type := "tone", frequency := some ⟨900, 1100⟩, duration := ⟨2/5, 3/5⟩ }
      , { type := "silence", duration := ⟨1/10, 3/10⟩ }
      , { type := "tone", frequency := some ⟨1900, 2100⟩, duration := ⟨2/5, 3/5⟩ }
      , { type := "silence", duration := ⟨4/5, 6/5⟩ } ]
    confirmation_cycles := 2 }

/-- The tone events of two full valid cycles of `complexSiren`
(1000 Hz / 0.5 s, gap 0.2 s, 2000 Hz / 0.5 s, gap 1.0 s) × 2. -/
def sirenCycleEvents : List AudioEvent :=
  [ .tone ⟨0, 1/2, 1000, 1, 1⟩
  , .tone ⟨7/10, 1/2, 2000, 1, 1⟩
  , .tone ⟨11/5, 1/2, 1000, 1, 1⟩
  , .tone ⟨29/10, 1/2, 2000, 1, 1⟩ ]

/-- The first tone of a third cycle, 1.0 s after the fourth tone ends:
the event whose arrival lets the matcher observe the final silence gap. -/
def sirenFlushEvent : AudioEvent := .tone ⟨22/5, 1/2, 1000, 1, 1⟩

/-- A two-tone profile (no silence segments) used to exhibit the missing
`reset_timeout` logic: without a gap-range check between the two tones,
only a timeout could reject an arbitrarily late second tone. -/
def twoToneProfile : AlarmProfile :=
  { name := "TwoTone"
    segments :=
      [ { type := "tone", frequency := some ⟨900, 1100⟩, duration := ⟨2/5, 3/5⟩ }
      , { type := "tone", frequency := some ⟨1900, 2100⟩, duration := ⟨2/5, 3/5⟩ } ]
    confirmation_cycles := 1 }

/-! ## detector/dsp.py

`SpectralMonitor` is embedded from the magnitude spectrum onward: the
floating-point front end — int16 → float scaling, Hann window and
`np.abs(np.fft.rfft(...))` (dsp.py lines 48–52) — is abstracted as a
function argument `fftMag : List ℤ → List ℚ` mapping the raw chunk to
its magnitude spectrum.  Everything from line 56 on (max test, interior
local-maximum scan, sharpness gate, sort, cap) is translated directly. -/

/-- `dsp.Peak`: a spectral peak. -/
structure Peak where
  frequency : ℚ
  magnitude : ℚ
  bin_index : ℕ
deriving Repr, DecidableEq

/-- `np.max` of a list (dsp.py line 56 computes
`np.max(fft_data) if len(fft_data) > 0 else 0`). -/
def listMax : List ℚ → ℚ
  | [] => 0
  | x :: xs => xs.foldl max x

/-- Configuration of `dsp.SpectralMonitor` (constructor, lines 26–34). -/
structure SpectralMonitor where
  sample_rate : ℕ
  chunk_size : ℕ
  min_magnitude : ℚ := 5/100
  min_sharpness : ℚ := 3/2
deriving Repr, DecidableEq

/-- `np.fft.rfftfreq(chunk_size, 1/sample_rate)[i] = i·sample_rate/chunk_size`
(dsp.py line 29), as an exact rational. -/
def SpectralMonitor.freqBin (m : SpectralMonitor) (i : ℕ) : ℚ :=
  (i : ℚ) * m.sample_rate / m.chunk_size

/-- The body of the peak-finding loop for one interior bin `i`
(dsp.py lines 71–90): reject magnitudes below the absolute floor, require
a strict local maximum over the two adjacent bins, then require the
sharpness ratio against the 4-neighbour average (with the `1e-6`
zero-denominator guard of line 86) to exceed `min_sharpness`. -/
def SpectralMonitor.peakAt (m : SpectralMonitor) (fft : List ℚ) (i : ℕ) : Option Peak :=
  let mag := fft.getD i 0
  if mag < m.min_magnitude then none
  else if mag > fft.getD (i - 1) 0 ∧ mag > fft.getD (i + 1) 0 then
    let nb := (fft.getD (i - 2) 0 + fft.getD (i - 1) 0
      + fft.getD (i + 1) 0 + fft.getD (i + 2) 0) / 4
    let nb := if nb = 0 then 1 / 1000000 else nb
    if mag / nb > m.min_sharpness then some ⟨m.freqBin i, mag, i⟩ else none
  else none

/-- `SpectralMonitor.process` (dsp.py lines 39–96) over an abstract
magnitude-spectrum function.  A chunk of the wrong length yields `[]`
(line 44–46); a spectrum with maximum 0 yields `[]` (lines 56–58); the
interior bins `range(2, len(fft_data) - 2)` are scanned for qualifying
peaks, which are sorted by magnitude descending (Python's stable sort ↦
stable `mergeSort`) and capped to the top 5.  Note the peak magnitudes
are the raw spectrum values: the normalized spectrum computed at
lines 60–62 is never used. -/
def SpectralMonitor.processWith (m : SpectralMonitor) (fftMag : List ℤ → List ℚ)
    (chunk : List ℤ) : List Peak :=
  if chunk.length ≠ m.chunk_size then []
  else
    let fft_data := fftMag chunk
    let max_val := listMax fft_data
    if max_val = 0 then []
    else
      let candidates := (List.range' 2 (fft_data.length - 4)).filterMap (m.peakAt fft_data)
      let sorted := candidates.mergeSort (fun a b => b.magnitude ≤ a.magnitude)
      sorted.take 5

/-! ## detector/generator.py -/

/-- `generator.ActiveTone`: a currently tracked tone. -/
structure ActiveTone where
  start_time : ℚ
  frequency : ℚ
  max_magnitude : ℚ
  last_seen_time : ℚ
  samples_count : ℕ
deriving Repr, DecidableEq

/-- Default `ActiveTone` used with `List.getD`; theorems carry the index
bound that keeps it unreached. -/
def dfltTone : ActiveTone := ⟨0, 0, 0, 0, 0⟩

/-- `generator.EventGenerator`: configuration and cross-chunk state
(constructor, generator.py lines 31–43). -/
structure EventGenerator where
  sample_rate : ℕ
  chunk_size : ℕ
  frequency_tolerance : ℚ := 50
  min_tone_duration : ℚ := 1/10
  dropout_tolerance : ℚ := 3/20
  active_tones : List ActiveTone
  last_process_time : ℚ
deriving Repr, DecidableEq

/-- `chunk_duration = chunk_size / sample_rate` (generator.py line 34). -/
def EventGenerator.chunkDuration (g : EventGenerator) : ℚ :=
  (g.chunk_size : ℚ) / g.sample_rate

/-- Updating an existing `ActiveTone` when a peak re-matches it
(generator.py lines 57–60). -/
def ActiveTone.refresh (t : ActiveTone) (pk : Peak) (ts : ℚ) : ActiveTone :=
  { t with max_magnitude := max t.max_magnitude pk.magnitude,
           last_seen_time := ts,
           samples_count := t.samples_count + 1 }

/-- An `ActiveTone` spawned by an unmatched peak
(generator.py lines 66–76). -/
def ActiveTone.spawn (pk : Peak) (ts : ℚ) : ActiveTone :=
  ⟨ts, pk.frequency, pk.magnitude, ts, 1⟩

/-- One iteration of the peak-matching loop (generator.py lines 53–76):
the peak associates to the first active tone within
`frequency_tolerance` (first match wins); otherwise it spawns a new
tracker, whose index is also recorded as active this call. -/
def EventGenerator.absorbPeak (g : EventGenerator) (ts : ℚ)
    (acc : List ActiveTone × Finset ℕ) (pk : Peak) : List ActiveTone × Finset ℕ :=
  match acc.1.findIdx? (fun t => decide (|pk.frequency - t.frequency| < g.frequency_tolerance)) with
  | some i => (acc.1.set i ((acc.1.getD i (ActiveTone.spawn pk ts)).refresh pk ts), insert i acc.2)
  | none => (acc.1 ++ [ActiveTone.spawn pk ts], insert acc.1.length acc.2)

/-- Step 1 of `EventGenerator.process` (generator.py lines 50–76): match
every peak in order, returning the updated tone list and the set of
`current_active_indices`. -/
def EventGenerator.matchPeaks (g : EventGenerator) (peaks : List Peak) (ts : ℚ) :
    List ActiveTone × Finset ℕ :=
  peaks.foldl (g.absorbPeak ts) (g.active_tones, ∅)

/-- The `ToneEvent` produced when an expired tone is finalized
(generator.py lines 91–101): duration `samples_count × chunk_duration`,
frequency the representative frequency, magnitude the running maximum. -/
def EventGenerator.closeEvent (g : EventGenerator) (t : ActiveTone) : ToneEvent :=
  ⟨t.start_time, (t.samples_count : ℚ) * g.chunkDuration, t.frequency, t.max_magnitude, 1⟩

/-- Step 2 of `EventGenerator.process` (generator.py lines 78–118),
written as structural recursion over the indexed tone list (Python's
`for i, tone in enumerate(...)`): a tone whose index is in
`current_active_indices` is kept; an unseen tone is kept while
`timestamp - last_seen_time` has not exceeded `dropout_tolerance`, and is
otherwise closed, emitting a `ToneEvent` exactly when its estimated
duration reaches `min_tone_duration`. -/
def EventGenerator.closeExpired (g : EventGenerator) (ts : ℚ) (matched : Finset ℕ) :
    ℕ → List ActiveTone → List ToneEvent × List ActiveTone
  | _, [] => ([], [])
  | i, t :: rest =>
    let r := EventGenerator.closeExpired g ts matched (i + 1) rest
    if i ∈ matched then (r.1, t :: r.2)
    else if ts - t.last_seen_time > g.dropout_tolerance then
      if (t.samples_count : ℚ) * g.chunkDuration ≥ g.min_tone_duration then
        (g.closeEvent t :: r.1, r.2)
      else (r.1, r.2)
    else (r.1, t :: r.2)

/-- `EventGenerator.process` (generator.py lines 45–122): match peaks to
active tones, close out expired tones, and return the finished
`ToneEvent`s together with the updated generator state. -/
def EventGenerator.process (g : EventGenerator) (peaks : List Peak) (ts : ℚ) :
    List ToneEvent × EventGenerator :=
  let m := g.matchPeaks peaks ts
  let r := EventGenerator.closeExpired g ts m.2 0 m.1
  (r.1, { g with active_tones := r.2, last_process_time := ts })

/-- A concrete generator state (44100 Hz, 4096-sample chunks, default
tolerances) tracking one active tone last seen at time 0, used to witness
the dropout behaviour. -/
def genExample : EventGenerator :=
  { sample_rate := 44100, chunk_size := 4096
    active_tones := [⟨0, 1000, 1/2, 0, 5⟩], last_process_time := 0 }

/-! ## detector/analyzer.py

`SpectralAnalyzer` works on exact rationals except for
`np.std(freq_history)`, whose square root leaves ℚ; the source's test
`np.std(h) > max_freq_variance` is embedded by the equivalent
square-free comparison `max_freq_variance < 0 ∨
Σ(x−μ)² > max_freq_variance² · len(h)` (`stdExceeds` below), which
agrees with it on every nonempty history.  The formatted reason strings
are abstracted into the `Reason` tags, one per source `reasons.append`
site. -/

/-- The analyzer-relevant fields of `config.DetectorProfile`. -/
structure DetectorProfile where
  min_energy_ratio : ℚ
  min_peak_sharpness : ℚ
  max_freq_variance : ℚ
  min_magnitude_consistency : ℚ
deriving Repr, DecidableEq

/-- The fields of `screener.ScreenerResult` read by
`SpectralAnalyzer.analyze`. -/
structure ScreenerResult where
  detected : Bool
  fft_magnitude : List ℚ
  target_band : List ℚ
  peak_index : ℕ
  dominant_freq : ℚ
  magnitude : ℚ
deriving Repr, DecidableEq

/-- One tag per `reasons.append` site in `SpectralAnalyzer.analyze`. -/
inductive Reason where
  | no_primary_detection
  | low_energy_ratio
  | low_sharpness
  | unstable_frequency
  | inconsistent_magnitude
deriving Repr, DecidableEq

/-- `analyzer.AnalysisResult` (validity and reasons; the float metric
fields are not modelled). -/
structure AnalysisResult where
  is_valid : Bool
  reasons : List Reason
deriving Repr, DecidableEq

/-- `analyzer.SpectralAnalyzer`: profile plus the two rolling histories
(`deque(maxlen=10)` and `deque(maxlen=5)`, oldest first). -/
structure SpectralAnalyzer where
  profile : DetectorProfile
  freq_history : List ℚ
  mag_history : List ℚ
deriving Repr, DecidableEq

/-- `deque(maxlen=cap).append(x)`: push right, evict oldest beyond
`cap`. -/
def pushCap (cap : ℕ) (l : List ℚ) (x : ℚ) : List ℚ :=
  let l' := l ++ [x]
  if cap < l'.length then l'.drop (l'.length - cap) else l'

/-- `np.min` of a nonempty list (0 on `[]`, unreached in the source). -/
def listMin : List ℚ → ℚ
  | [] => 0
  | x :: xs => xs.foldl min x

/-- Sum of squares, `np.sum(v**2)`. -/
def sumSq (l : List ℚ) : ℚ := (l.map (fun x => x ^ 2)).sum

/-- `Σ (x − mean)²` over a list (so `np.std l = √(popVarSum l / len l)`). -/
def popVarSum (l : List ℚ) : ℚ :=
  let μ := l.sum / l.length
  (l.map (fun x => (x - μ) ^ 2)).sum

/-- Square-free embedding of `np.std l > t`: for nonempty `l`,
`√(popVarSum l / n) > t ⟺ t < 0 ∨ popVarSum l > t²·n`. -/
def stdExceeds (l : List ℚ) (t : ℚ) : Bool :=
  decide (t < 0) || decide (t ^ 2 * l.length < popVarSum l)

/-- Check 1 (analyzer.py lines 46–56): energy ratio below
`min_energy_ratio`. -/
def analyzerFailEnergy (p : DetectorProfile) (r : ScreenerResult) : Bool :=
  decide (sumSq r.target_band / (sumSq r.fft_magnitude + 1 / 10 ^ 10) < p.min_energy_ratio)

/-- Check 2 (analyzer.py lines 58–80): peak sharpness below
`min_peak_sharpness`.  `start = max(0, peak_idx − 10)` is ℕ truncated
subtraction; `neighbor_count = len(neighbors) − 1` is computed in ℤ as in
Python. -/
def analyzerFailSharp (p : DetectorProfile) (r : ScreenerResult) : Bool :=
  let peak_val := r.fft_magnitude.getD r.peak_index 0
  let start := r.peak_index - 10
  let stop := min r.fft_magnitude.length (r.peak_index + 11)
  let neighbors := (r.fft_magnitude.drop start).take (stop - start)
  let neighbor_avg := (neighbors.sum - peak_val) / (((neighbors.length : ℤ) - 1 : ℤ) + 1 / 10 ^ 10)
  decide (peak_val / (neighbor_avg + 1 / 10 ^ 10) < p.min_peak_sharpness)

/-- Check 3 (analyzer.py lines 82–92), evaluated on the already-updated
frequency history: once ≥ 3 samples, `np.std` must stay within
`max_freq_variance`. -/
def analyzerFailFreq (p : DetectorProfile) (fh : List ℚ) : Bool :=
  decide (3 ≤ fh.length) && stdExceeds fh p.max_freq_variance

/-- Check 4 (analyzer.py lines 94–107), evaluated on the already-updated
magnitude history: once ≥ 3 samples, min/max ratio must reach
`min_magnitude_consistency`. -/
def analyzerFailMag (p : DetectorProfile) (mh : List ℚ) : Bool :=
  decide (3 ≤ mh.length)
    && decide (listMin mh / (listMax mh + 1 / 10 ^ 10) < p.min_magnitude_consistency)

/-- `SpectralAnalyzer.analyze` (analyzer.py lines 37–122): when no
primary detection occurred, clear both histories
(`_reset_history`, lines 124–127) and return invalid with the
`no_primary_detection` reason; otherwise run the four checks in order,
each failure flipping `is_valid` and appending its reason, and append
the new samples to the (never-cleared) histories. -/
def SpectralAnalyzer.analyze (s : SpectralAnalyzer) (r : ScreenerResult) :
    AnalysisResult × SpectralAnalyzer :=
  if r.detected = false then
    (⟨false, [.no_primary_detection]⟩, { s with freq_history := [], mag_history := [] })
  else
    let fh := pushCap 10 s.freq_history r.dominant_freq
    let mh := pushCap 5 s.mag_history r.magnitude
    let f1 := analyzerFailEnergy s.profile r
    let f2 := analyzerFailSharp s.profile r
    let f3 := analyzerFailFreq s.profile fh
    let f4 := analyzerFailMag s.profile mh
    let rs := (if f1 then [Reason.low_energy_ratio] else [])
      ++ (if f2 then [Reason.low_sharpness] else [])
      ++ (if f3 then [Reason.unstable_frequency] else [])
      ++ (if f4 then [Reason.inconsistent_magnitude] else [])
    (⟨!(f1 || f2 || f3 || f4), rs⟩, { s with freq_history := fh, mag_history := mh })

/-! ## detector/yaml_loader.py

`_parse_profile` consumes the already-deserialized YAML data.  The
relevant shape of that data — mappings whose keys may be absent, and
range values that are either a mapping or a bare number — is embedded
with `Option` fields and the `NumOrRange` sum. -/

/-- A YAML range mapping; `none` models an absent `min`/`max` key. -/
structure RangeData where
  min : Option ℚ
  max : Option ℚ
deriving Repr, DecidableEq

/-- A YAML value that is either a bare number or a range mapping. -/
inductive NumOrRange where
  | scalar (q : ℚ)
  | range (r : RangeData)
deriving Repr, DecidableEq

/-- A YAML segment mapping; `none` models an absent key. -/
structure SegmentData where
  type : Option String
  frequency : Option NumOrRange
  duration : Option NumOrRange
  min_magnitude : Option ℚ
deriving Repr, DecidableEq

/-- A YAML profile mapping; `none` models an absent key. -/
structure ProfileData where
  name : Option String
  segments : Option (List SegmentData)
  confirmation_cycles : Option ℕ
  reset_timeout : Option ℚ
deriving Repr, DecidableEq

/-- The body of the segment-parsing loop of `_parse_profile`
(yaml_loader.py lines 67–102): the segment type defaults to `"tone"`;
a tone's frequency mapping defaults missing `min`/`max` to 0/20000 and a
bare number becomes ±5 %; a missing duration defaults to
`{min: 0.1, max: 1.0}` (also per missing key) and a bare number becomes
±20 %.  No validation is performed anywhere. -/
def parseSegment (sd : SegmentData) : Segment :=
  let seg_type := sd.type.getD "tone"
  let frequency : Option Range :=
    if seg_type = "tone" then
      match sd.frequency with
      | some (.range r) => some ⟨r.min.getD 0, r.max.getD 20000⟩
      | some (.scalar f) => some ⟨f * (95/100), f * (105/100)⟩
      | none => none
    else none
  let duration : Range :=
    match sd.duration with
    | some (.range r) => ⟨r.min.getD (1/10), r.max.getD 1⟩
    | some (.scalar d) => ⟨d * (4/5), d * (6/5)⟩
    | none => ⟨1/10, 1⟩
  { type := seg_type
    frequency := frequency
    min_magnitude := sd.min_magnitude.getD (5/100)
    duration := duration }

/-- `yaml_loader._parse_profile` (lines 63–109): total, never raises;
every missing key is silently defaulted. -/
def parseProfile (d : ProfileData) : AlarmProfile :=
  { name := d.name.getD "UnnamedProfile"
    segments := (d.segments.getD []).map parseSegment
    confirmation_cycles := d.confirmation_cycles.getD 1
    reset_timeout := d.reset_timeout.getD 10 }

/-- A segment datum with an absent duration key and an inverted
(`min > max`) frequency range: the spec's parsing contract says this must
fail fast, naming the offending field. -/
def badSegmentData : SegmentData :=
  { type := some "tone"
    frequency := some (.range ⟨some 3000, some 1000⟩)
    duration := none
    min_magnitude := none }

/-- A profile datum carrying `badSegmentData`. -/
def badProfileData : ProfileData :=
  { name := some "Bad"
    segments := some [badSegmentData]
    confirmation_cycles := none
    reset_timeout := none }

/-! ## Pipeline orchestration (determinism)

Modelled from the spec: the Engine that wires
chunk → SpectralMonitor → EventGenerator → SequenceMatcher
(spec §2 data flow, §4.5) is not itself under `src/` — `main.py` drives
the legacy single-frequency detector instead — so the composition below
follows the spec's data flow, feeding each chunk's peaks and timestamp
to the generator and every resulting `ToneEvent` to the matcher. -/

/-- The full pipeline state: monitor configuration, generator state and
per-profile matcher states. -/
structure Pipeline where
  sm : SpectralMonitor
  gen : EventGenerator
  profs : List (AlarmProfile × MatcherState)
deriving Repr, DecidableEq

/-- A freshly constructed pipeline: fresh generator (no active tones) and
fresh matcher states. -/
def freshPipeline (sample_rate chunk_size : ℕ) (profiles : List AlarmProfile) : Pipeline :=
  { sm := { sample_rate := sample_rate, chunk_size := chunk_size }
    gen := { sample_rate := sample_rate, chunk_size := chunk_size
             active_tones := [], last_process_time := 0 }
    profs := profiles.map (fun p => (p, MatcherState.resetS)) }

/-- One chunk through the pipeline: peaks, tone events, pattern
matches. -/
def Pipeline.step (fftMag : List ℤ → List ℚ) (pl : Pipeline) (chunk : List ℤ) (ts : ℚ) :
    List PatternMatchEvent × Pipeline :=
  let peaks := pl.sm.processWith fftMag chunk
  let g := pl.gen.process peaks ts
  let m := g.1.foldl
    (fun acc te =>
      let r := SequenceMatcher.process acc.2 (.tone te)
      (acc.1 ++ r.1, r.2))
    ([], pl.profs)
  (m.1, ⟨pl.sm, g.2, m.2⟩)

/-- A whole run: fold the chunk/timestamp stream through the pipeline,
accumulating every `PatternMatchEvent`. -/
def Pipeline.run (fftMag : List ℤ → List ℚ) (pl : Pipeline)
    (input : List (List ℤ × ℚ)) : List PatternMatchEvent × Pipeline :=
  input.foldl
    (fun acc ci =>
      let r := Pipeline.step fftMag acc.2 ci.1 ci.2
      (acc.1 ++ r.1, r.2))
    ([], pl)

/-! # Matcher lemmas -/

/-- The wraparound block satisfies the emission contract whenever the
incoming `cycle_count` is below the confirmation threshold. -/
lemma wrapAdvance_spec (p : AlarmProfile) (t : MatcherState) (ts : ℚ)
    (hcyc : t.cycle_count < p.confirmation_cycles) :
    EmitSpec p ts (wrapAdvance p t ts) := by
  unfold EmitSpec wrapAdvance
  split_ifs with h1 h2
  · refine ⟨by simp; omega, ?_⟩
    intro ev hev
    simp only [Option.some.injEq] at hev
    simp [← hev]
  · refine ⟨by simp; omega, by simp⟩
  · refine ⟨by simp, by simp⟩

/-- The tone phase satisfies the emission contract whenever the incoming
`cycle_count` is below the confirmation threshold. -/
lemma tonePhase_spec (p : AlarmProfile) (t : MatcherState) (te : ToneEvent)
    (hcyc : t.cycle_count < p.confirmation_cycles) :
    EmitSpec p te.timestamp (tonePhase p t te) := by
  have h0 : (0 : ℕ) < p.confirmation_cycles := Nat.pos_of_ne_zero (by omega)
  simp only [tonePhase, advanceMatched]
  split_ifs with h1 h2 h3 h4
  · exact wrapAdvance_spec p _ te.timestamp hcyc
  · exact wrapAdvance_spec p _ te.timestamp h0
  · exact ⟨by simp, by simp⟩
  · exact ⟨by simp, by simp⟩
  · exact ⟨by simp, by simp⟩

/-- When the incoming index is at least two segments from the end, the
tone phase can neither wrap nor emit. -/
lemma tonePhase_no_wrap (p : AlarmProfile) (t : MatcherState) (te : ToneEvent)
    (hidx : t.current_segment_index + 1 < p.segments.length) :
    (tonePhase p t te).emitted = none ∧ (tonePhase p t te).completedCycle = none := by
  have h2 : (2 : ℕ) ≤ p.segments.length := by omega
  simp only [tonePhase, advanceMatched, wrapAdvance, MatcherState.resetS]
  split_ifs <;> simp_all <;> omega

/-- The tone phase is a no-op when the expected segment is not a tone. -/
lemma tonePhase_not_tone (p : AlarmProfile) (t : MatcherState) (te : ToneEvent)
    (hty : ¬ (p.segments.getD t.current_segment_index dfltSeg).type = "tone") :
    tonePhase p t te = ⟨t, none, none⟩ := by
  unfold tonePhase
  rw [if_neg hty]

/-- The silence phase is a no-op when the expected segment is not a
silence. -/
lemma silencePhase_not_silence (p : AlarmProfile) (s : MatcherState) (te : ToneEvent)
    (hty : ¬ (p.segments.getD s.current_segment_index dfltSeg).type = "silence") :
    silencePhase p s te = ⟨s, none, none⟩ := by
  unfold silencePhase
  rw [if_neg hty]

/-- Unfolding `updateProfileX` on a tone event when the stored index is
in range (so the defensive clamp of matcher.py lines 58–60 is the
identity). -/
lemma updateProfileX_tone (p : AlarmProfile) (s : MatcherState) (te : ToneEvent)
    (hidx : s.current_segment_index < p.segments.length) :
    updateProfileX p s (.tone te) =
      match (silencePhase p s te).emitted with
      | some ev => ⟨(silencePhase p s te).state, some ev, (silencePhase p s te).completedCycle⟩
      | none =>
        ⟨(tonePhase p (silencePhase p s te).state te).state,
          (tonePhase p (silencePhase p s te).state te).emitted,
          (silencePhase p s te).completedCycle
            <|> (tonePhase p (silencePhase p s te).state te).completedCycle⟩ := by
  unfold updateProfileX
  rw [if_neg (not_le.mpr hidx)]

/-- `updateProfileX` coincides with the silence phase when the latter
emits (the early return of matcher.py line 102). -/
lemma updateProfileX_tone_someEmit (p : AlarmProfile) (s : MatcherState) (te : ToneEvent)
    (ev : PatternMatchEvent) (hidx : s.current_segment_index < p.segments.length)
    (hem : (silencePhase p s te).emitted = some ev) :
    updateProfileX p s (.tone te) = silencePhase p s te := by
  calc updateProfileX p s (.tone te)
      = ⟨(silencePhase p s te).state, some ev, (silencePhase p s te).completedCycle⟩ := by
        rw [updateProfileX_tone p s te hidx, hem]
    _ = silencePhase p s te := by rw [← hem]

/-- `updateProfileX` runs the tone phase on the silence phase's state
when the latter does not emit. -/
lemma updateProfileX_tone_noEmit (p : AlarmProfile) (s : MatcherState) (te : ToneEvent)
    (hidx : s.current_segment_index < p.segments.length)
    (hem : (silencePhase p s te).emitted = none) :
    updateProfileX p s (.tone te) =
      ⟨(tonePhase p (silencePhase p s te).state te).state,
        (tonePhase p (silencePhase p s te).state te).emitted,
        (silencePhase p s te).completedCycle
          <|> (tonePhase p (silencePhase p s te).state te).completedCycle⟩ := by
  rw [updateProfileX_tone p s te hidx, hem]

/-- Main emission lemma: on every tone event, from any in-range state
whose `cycle_count` is below the confirmation threshold,
`_update_profile` satisfies the emission contract `EmitSpec` — it emits
exactly on the `confirmation_cycles`-th consecutive wrap, zeroing both
counters at that moment. -/
lemma updateProfileX_emitSpec (p : AlarmProfile) (s : MatcherState) (te : ToneEvent)
    (hidx : s.current_segment_index < p.segments.length)
    (hcyc : s.cycle_count < p.confirmation_cycles) :
    EmitSpec p te.timestamp (updateProfileX p s (.tone te)) := by
  have h0 : (0 : ℕ) < p.confirmation_cycles := by omega
  by_cases hty : (p.segments.getD s.current_segment_index dfltSeg).type = "silence"
  case neg =>
    have hsil := silencePhase_not_silence p s te hty
    rw [updateProfileX_tone_noEmit p s te hidx (by rw [hsil]), hsil]
    exact tonePhase_spec p s te hcyc
  case pos =>
    by_cases hgap :
        (p.segments.getD s.current_segment_index dfltSeg).duration.containsB
          (te.timestamp - s.last_event_time) = true
    case neg =>
      by_cases hpos : 0 < s.current_segment_index
      case pos =>
        have hsil : silencePhase p s te = ⟨MatcherState.resetS, none, none⟩ := by
          unfold silencePhase
          rw [if_pos hty, if_neg (by simpa using hgap), if_pos hpos]
        rw [updateProfileX_tone_noEmit p s te hidx (by rw [hsil]), hsil]
        exact tonePhase_spec p MatcherState.resetS te h0
      case neg =>
        have hsil : silencePhase p s te = ⟨s, none, none⟩ := by
          unfold silencePhase
          rw [if_pos hty, if_neg (by simpa using hgap), if_neg hpos]
        rw [updateProfileX_tone_noEmit p s te hidx (by rw [hsil]), hsil]
        exact tonePhase_spec p s te hcyc
    case pos =>
      by_cases hwrap : p.segments.length ≤ s.current_segment_index + 1
      case neg =>
        have hsil : silencePhase p s te =
            ⟨⟨s.current_segment_index + 1, s.cycle_count, s.last_event_time⟩, none, none⟩ := by
          unfold silencePhase wrapAdvance
          rw [if_pos hty, if_pos hgap, if_neg hwrap]
        rw [updateProfileX_tone_noEmit p s te hidx (by rw [hsil]), hsil]
        exact tonePhase_spec p _ te hcyc
      case pos =>
        by_cases hemit : p.confirmation_cycles ≤ s.cycle_count + 1
        case pos =>
          have hsil : silencePhase p s te =
              ⟨⟨0, 0, s.last_event_time⟩,
                some ⟨te.timestamp, 0, p.name, p.confirmation_cycles⟩,
                some (s.cycle_count + 1)⟩ := by
            unfold silencePhase wrapAdvance
            rw [if_pos hty, if_pos hgap, if_pos hwrap, if_pos hemit]
          rw [updateProfileX_tone_someEmit p s te _ hidx (by rw [hsil]), hsil]
          refine ⟨by simp; omega, ?_⟩
          intro ev hev
          simp only [Option.some.injEq] at hev
          simp [← hev]
        case neg =>
          have hsil : silencePhase p s te =
              ⟨⟨0, s.cycle_count + 1, s.last_event_time⟩, none, some (s.cycle_count + 1)⟩ := by
            unfold silencePhase wrapAdvance
            rw [if_pos hty, if_pos hgap, if_pos hwrap, if_neg hemit]
          rw [updateProfileX_tone_noEmit p s te hidx (by rw [hsil]), hsil]
          have hr2 : (tonePhase p ⟨0, s.cycle_count + 1, s.last_event_time⟩ te).emitted = none
              ∧ (tonePhase p ⟨0, s.cycle_count + 1, s.last_event_time⟩ te).completedCycle
                  = none := by
            rcases Nat.lt_or_ge s.current_segment_index 1 with hi | hi
            · have hidx0 : s.current_segment_index = 0 := by omega
              have hty0 : (p.segments.getD 0 dfltSeg).type = "silence" := hidx0 ▸ hty
              have hnt : ¬ (p.segments.getD 0 dfltSeg).type = "tone" := by
                rw [hty0]; decide
              rw [tonePhase_not_tone p _ te hnt]
              exact ⟨rfl, rfl⟩
            · have hlen2 : 1 < p.segments.length := by omega
              exact tonePhase_no_wrap p _ te (by simpa using hlen2)
          rw [hr2.1, hr2.2]
          refine ⟨?_, ?_⟩
          · have horelse : (some (s.cycle_count + 1) <|> (none : Option ℕ))
                = some (s.cycle_count + 1) := rfl
            simp [horelse]
            omega
          · intro ev hev
            simp at hev

/-- `updateProfileX` on a (non-tone) silence event only runs the index
clamp and returns no match. -/
lemma updateProfileX_silence (p : AlarmProfile) (s : MatcherState) (ts dur : ℚ)
    (hidx : s.current_segment_index < p.segments.length) :
    updateProfileX p s (.silence ts dur) = ⟨s, none, none⟩ := by
  unfold updateProfileX
  rw [if_neg (not_le.mpr hidx)]

/-- `updateProfile` is a pure no-op (besides the in-range clamp) on a
silence event. -/
lemma updateProfile_silence_noop (p : AlarmProfile) (s : MatcherState) (ts dur : ℚ)
    (hidx : s.current_segment_index < p.segments.length) :
    updateProfile p s (.silence ts dur) = (s, none) := by
  unfold updateProfile
  rw [updateProfileX_silence p s ts dur hidx]

/-- Folding `SequenceMatcher.process`'s per-profile loop over a silence
event appends the untouched states and no matches. -/
lemma process_silence_foldl (ts dur : ℚ) :
    ∀ (l : List (AlarmProfile × MatcherState)) (a : List PatternMatchEvent)
      (b : List (AlarmProfile × MatcherState)),
      (∀ pr ∈ l, pr.2.current_segment_index < pr.1.segments.length) →
      l.foldl
        (fun acc pr =>
          let r := updateProfile pr.1 pr.2 (.silence ts dur)
          (acc.1 ++ r.2.toList, acc.2 ++ [(pr.1, r.1)]))
        (a, b) = (a, b ++ l) := by
  intro l
  induction l with
  | nil => intro a b _; simp
  | cons pr rest ih =>
    intro a b h
    have hpr := h pr (List.mem_cons_self pr rest)
    have hrest : ∀ q ∈ rest, q.2.current_segment_index < q.1.segments.length :=
      fun q hq => h q (List.mem_cons_of_mem pr hq)
    simp only [List.foldl_cons]
    rw [show (let r := updateProfile pr.1 pr.2 (.silence ts dur)
        ((a ++ r.2.toList, b ++ [(pr.1, r.1)]) : List PatternMatchEvent × List (AlarmProfile × MatcherState)))
      = (a, b ++ [pr]) by rw [updateProfile_silence_noop pr.1 pr.2 ts dur hpr]; simp]
    rw [ih a (b ++ [pr]) hrest]
    simp

/-- Literal string facts used to evaluate segment-type tests. -/
lemma tone_ne_silence : ("tone" : String) ≠ "silence" := by simp

/-- Literal string facts used to evaluate segment-type tests. -/
lemma silence_ne_tone : ("silence" : String) ≠ "tone" := by simp

/-! # Claim theorems -/

/-- **C1** (amended).  General part: from any in-range matcher state with
`cycle_count` below `confirmation_cycles`, a tone event makes
`_update_profile` emit a `PatternMatchEvent` exactly when this call wraps
the segment index past the last segment for the
`confirmation_cycles`-th consecutive time, and at that moment both
`current_segment_index` and `cycle_count` are reset to 0 (`EmitSpec`).
Concrete part: for the four-segment profile
[tone 900–1100 Hz/0.4–0.6 s, silence 0.1–0.3 s, tone 1900–2100 Hz/0.4–0.6 s,
silence 0.8–1.2 s] with `confirmation_cycles = 2`, feeding the tone events
of two full valid cycles alone produces **no** match — the final 0.8–1.2 s
silence is only confirmed by a later event — and with the first tone of a
third cycle appended, exactly one `PatternMatchEvent` is produced, at that
fifth event; in particular none is produced after the first cycle. -/
theorem sequence_matcher_confirmation_emission :
    (∀ (p : AlarmProfile) (s : MatcherState) (te : ToneEvent),
        WellFormed p →
        s.current_segment_index < p.segments.length →
        s.cycle_count < p.confirmation_cycles →
        EmitSpec p te.timestamp (updateProfileX p s (.tone te)))
    ∧ (runEvents [(complexSiren, MatcherState.resetS)] sirenCycleEvents).1 = []
    ∧ (runEvents [(complexSiren, MatcherState.resetS)]
        (sirenCycleEvents ++ [sirenFlushEvent])).1
      = [⟨22/5, 0, "ComplexSiren", 2⟩] := by
  refine ⟨fun p s te _ hidx hcyc => updateProfileX_emitSpec p s te hidx hcyc, ?_, ?_⟩
  · norm_num [runEvents, SequenceMatcher.process, updateProfile, updateProfileX, silencePhase,
      tonePhase, wrapAdvance, advanceMatched, toneFits, freqContainsB, Range.containsB,
      complexSiren, dfltSeg, MatcherState.resetS, sirenCycleEvents, sirenFlushEvent,
      tone_ne_silence, silence_ne_tone, List.getD_cons_zero, List.getD_cons_succ]
  · norm_num [runEvents, SequenceMatcher.process, updateProfile, updateProfileX, silencePhase,
      tonePhase, wrapAdvance, advanceMatched, toneFits, freqContainsB, Range.containsB,
      complexSiren, dfltSeg, MatcherState.resetS, sirenCycleEvents, sirenFlushEvent,
      tone_ne_silence, silence_ne_tone, List.getD_cons_zero, List.getD_cons_succ]

/-- Witness for the general part of C1 at a concrete input: the fresh
`ComplexSiren` state and a 1000 Hz / 0.5 s tone at time 0. -/
theorem sequence_matcher_confirmation_emission_witness :
    WellFormed complexSiren
    ∧ MatcherState.resetS.current_segment_index < complexSiren.segments.length
    ∧ MatcherState.resetS.cycle_count < complexSiren.confirmation_cycles
    ∧ EmitSpec complexSiren 0
        (updateProfileX complexSiren MatcherState.resetS (.tone ⟨0, 1/2, 1000, 1, 1⟩)) := by
  have hwf : WellFormed complexSiren := by
    intro seg hseg
    fin_cases hseg <;> simp
  refine ⟨hwf, by decide, by decide, ?_⟩
  exact sequence_matcher_confirmation_emission.1 complexSiren MatcherState.resetS
    ⟨0, 1/2, 1000, 1, 1⟩ hwf (by decide) (by decide)

/-- **C1** counterexample to the claim as stated: feeding exactly the
tone events of two full valid cycles of the four-segment profile produces
zero `PatternMatchEvent`s, not exactly one — the wrap past the final
silence segment cannot be observed until a further event arrives. -/
theorem two_full_cycles_alone_yield_no_match :
    (runEvents [(complexSiren, MatcherState.resetS)] sirenCycleEvents).1 = []
    ∧ (runEvents [(complexSiren, MatcherState.resetS)] sirenCycleEvents).1.length ≠ 1 := by
  have h : (runEvents [(complexSiren, MatcherState.resetS)] sirenCycleEvents).1 = [] := by
    norm_num [runEvents, SequenceMatcher.process, updateProfile, updateProfileX, silencePhase,
      tonePhase, wrapAdvance, advanceMatched, toneFits, freqContainsB, Range.containsB,
      complexSiren, dfltSeg, MatcherState.resetS, sirenCycleEvents,
      tone_ne_silence, silence_ne_tone, List.getD_cons_zero, List.getD_cons_succ]
  exact ⟨h, by rw [h]; decide⟩

/-- **C2** (code bug exhibit).  `reset_timeout` is never consulted by
`SequenceMatcher`: the timeout block of matcher.py lines 64–74 is a
bare `pass`, and the class has no per-chunk entry point at all.  With the
two-tone profile (`reset_timeout = 10` s), a second tone arriving 9999.5 s
after the last progress — far beyond the timeout — still completes the
pattern and emits a match, where the spec requires the stale progress to
have been abandoned. -/
theorem stale_progress_without_timeout_still_matches :
    twoToneProfile.reset_timeout = 10
    ∧ ((10000 : ℚ) - (0 + 1/2)) > twoToneProfile.reset_timeout
    ∧ (runEvents [(twoToneProfile, MatcherState.resetS)] [.tone ⟨0, 1/2, 1000, 1, 1⟩]).2
      = [(twoToneProfile, ⟨1, 0, 1/2⟩)]
    ∧ (runEvents [(twoToneProfile, MatcherState.resetS)]
        [.tone ⟨0, 1/2, 1000, 1, 1⟩, .tone ⟨10000, 1/2, 2000, 1, 1⟩]).1
      = [⟨10000, 0, "TwoTone", 1⟩] := by
  refine ⟨rfl, by norm_num [twoToneProfile], ?_, ?_⟩
  · norm_num [runEvents, SequenceMatcher.process, updateProfile, updateProfileX, silencePhase,
      tonePhase, wrapAdvance, advanceMatched, toneFits, freqContainsB, Range.containsB,
      twoToneProfile, dfltSeg, MatcherState.resetS, tone_ne_silence, silence_ne_tone,
      List.getD_cons_zero, List.getD_cons_succ]
  · norm_num [runEvents, SequenceMatcher.process, updateProfile, updateProfileX, silencePhase,
      tonePhase, wrapAdvance, advanceMatched, toneFits, freqContainsB, Range.containsB,
      twoToneProfile, dfltSeg, MatcherState.resetS, tone_ne_silence, silence_ne_tone,
      List.getD_cons_zero, List.getD_cons_succ]

/-- **C4**.  From a state with `current_segment_index > 0` expecting a
tone segment, an event violating that segment's frequency or duration
ranges fully resets the state (cycle_count included) and is immediately
re-tested against segment 0: if it fits segment 0 the index advances to 1
with `last_event_time = timestamp + duration`; otherwise the state stays
at the full reset. -/
theorem failed_match_resets_and_retries_segment_zero
    (p : AlarmProfile) (s : MatcherState) (te : ToneEvent)
    (hpos : 0 < s.current_segment_index)
    (hidx : s.current_segment_index < p.segments.length)
    (hseg : (p.segments.getD s.current_segment_index dfltSeg).type = "tone")
    (hviol : toneFits (p.segments.getD s.current_segment_index dfltSeg) te = false) :
    (((p.segments.getD 0 dfltSeg).type = "tone"
        ∧ toneFits (p.segments.getD 0 dfltSeg) te = true) →
      updateProfile p s (.tone te) = (⟨1, 0, te.timestamp + te.duration⟩, none))
    ∧ (¬ ((p.segments.getD 0 dfltSeg).type = "tone"
        ∧ toneFits (p.segments.getD 0 dfltSeg) te = true) →
      updateProfile p s (.tone te) = (MatcherState.resetS, none)) := by
  have hlen2 : 2 ≤ p.segments.length := by omega
  have hty' : ¬ (p.segments.getD s.current_segment_index dfltSeg).type = "silence" := by
    rw [hseg]; decide
  have hsil := silencePhase_not_silence p s te hty'
  have hupd := updateProfileX_tone_noEmit p s te hidx (by rw [hsil])
  constructor
  · rintro ⟨h0ty, h0fit⟩
    have htone : tonePhase p s te = ⟨⟨1, 0, te.timestamp + te.duration⟩, none, none⟩ := by
      simp only [tonePhase, advanceMatched, wrapAdvance, MatcherState.resetS]
      split_ifs <;> simp_all <;> omega
    simp only [updateProfile, hupd, hsil, htone]
  · intro hno
    have htone : tonePhase p s te = ⟨MatcherState.resetS, none, none⟩ := by
      simp only [tonePhase, advanceMatched, wrapAdvance, MatcherState.resetS]
      split_ifs <;> simp_all
    simp only [updateProfile, hupd, hsil, htone]

/-- Witness for C4: the `ComplexSiren` state at index 2 (expecting
1900–2100 Hz) receiving a 1000 Hz / 0.5 s tone, which violates segment 2
but fits segment 0, so matching restarts at index 1. -/
theorem failed_match_resets_and_retries_segment_zero_witness :
    (0 < (2 : ℕ))
    ∧ ((2 : ℕ) < complexSiren.segments.length)
    ∧ (complexSiren.segments.getD 2 dfltSeg).type = "tone"
    ∧ toneFits (complexSiren.segments.getD 2 dfltSeg) ⟨2, 1/2, 1000, 1, 1⟩ = false
    ∧ updateProfile complexSiren ⟨2, 1, 7/5⟩ (.tone ⟨2, 1/2, 1000, 1, 1⟩)
        = (⟨1, 0, 2 + 1/2⟩, none) := by
  have h1 : toneFits (complexSiren.segments.getD 2 dfltSeg) ⟨2, 1/2, 1000, 1, 1⟩ = false := by
    norm_num [toneFits, freqContainsB, Range.containsB, complexSiren,
      List.getD_cons_zero, List.getD_cons_succ]
  have h2 : (complexSiren.segments.getD 0 dfltSeg).type = "tone"
      ∧ toneFits (complexSiren.segments.getD 0 dfltSeg) ⟨2, 1/2, 1000, 1, 1⟩ = true := by
    norm_num [toneFits, freqContainsB, Range.containsB, complexSiren,
      List.getD_cons_zero, List.getD_cons_succ]
  refine ⟨by decide, by decide, by decide, h1, ?_⟩
  exact (failed_match_resets_and_retries_segment_zero complexSiren ⟨2, 1, 7/5⟩
    ⟨2, 1/2, 1000, 1, 1⟩ (by decide) (by decide) (by decide) h1).1 h2

/-- **C10**.  A non-`ToneEvent` (a `SilenceEvent`) leaves every
profile's `MatcherState` untouched (indices being in range) and yields no
matches: only `ToneEvent`s can advance, reset or complete a pattern. -/
theorem silence_event_is_frame
    (l : List (AlarmProfile × MatcherState)) (ts dur : ℚ)
    (hidx : ∀ pr ∈ l, pr.2.current_segment_index < pr.1.segments.length) :
    SequenceMatcher.process l (.silence ts dur) = ([], l) := by
  unfold SequenceMatcher.process
  rw [process_silence_foldl ts dur l [] [] hidx]
  simp

/-- Witness for C10: a `ComplexSiren` state mid-pattern is untouched by a
silence event. -/
theorem silence_event_is_frame_witness :
    (∀ pr ∈ [(complexSiren, (⟨2, 1, 7/5⟩ : MatcherState))],
      pr.2.current_segment_index < pr.1.segments.length)
    ∧ SequenceMatcher.process [(complexSiren, ⟨2, 1, 7/5⟩)] (.silence 3 (1/2))
        = ([], [(complexSiren, ⟨2, 1, 7/5⟩)]) := by
  refine ⟨?_, ?_⟩
  · intro pr hpr
    fin_cases hpr
    decide
  · exact silence_event_is_frame [(complexSiren, ⟨2, 1, 7/5⟩)] 3 (1/2)
      (by intro pr hpr; fin_cases hpr; decide)

/-! # Generator lemmas -/

/-- `List.getD` ignores a `set` at a different index. -/
lemma getD_set_ne {α : Type} (l : List α) (i j : ℕ) (a d : α) (h : i ≠ j) :
    (l.set j a).getD i d = l.getD i d := by
  simp [List.getD_eq_getElem?_getD, List.getElem?_set_ne (Ne.symm h)]

/-- `List.getD` ignores a trailing append below the original length. -/
lemma getD_append_left {α : Type} (l l' : List α) (i : ℕ) (d : α) (h : i < l.length) :
    (l ++ l').getD i d = l.getD i d := by
  simp [List.getD_eq_getElem?_getD, List.getElem?_append_left h]

/-- The peak-matching fold (step 1 of `EventGenerator.process`) only
grows the matched-index set, only grows the tone list, and leaves every
tone whose index ends up unmatched exactly as it was. -/
lemma matchPeaks_foldl_inv (g : EventGenerator) (ts : ℚ) :
    ∀ (ps : List Peak) (tones : List ActiveTone) (m : Finset ℕ),
      m ⊆ (ps.foldl (g.absorbPeak ts) (tones, m)).2
      ∧ tones.length ≤ (ps.foldl (g.absorbPeak ts) (tones, m)).1.length
      ∧ ∀ i, i < tones.length → i ∉ (ps.foldl (g.absorbPeak ts) (tones, m)).2 →
          (ps.foldl (g.absorbPeak ts) (tones, m)).1.getD i dfltTone = tones.getD i dfltTone := by
  intro ps
  induction ps with
  | nil =>
    intro tones m
    exact ⟨Finset.Subset.refl m, Nat.le_refl _, fun i _ _ => rfl⟩
  | cons pk rest ih =>
    intro tones m
    simp only [List.foldl_cons]
    cases hf : tones.findIdx?
        (fun t => decide (|pk.frequency - t.frequency| < g.frequency_tolerance)) with
    | some j =>
      have hstep : g.absorbPeak ts (tones, m) pk =
          (tones.set j ((tones.getD j (ActiveTone.spawn pk ts)).refresh pk ts), insert j m) := by
        unfold EventGenerator.absorbPeak
        rw [hf]
      rw [hstep]
      obtain ⟨h1, h2, h3⟩ := ih (tones.set j ((tones.getD j (ActiveTone.spawn pk ts)).refresh pk ts))
        (insert j m)
      refine ⟨Finset.Subset.trans (Finset.subset_insert j m) h1, ?_, ?_⟩
      · calc tones.length = (tones.set j _).length := (List.length_set tones j _).symm
          _ ≤ _ := h2
      · intro i hi hni
        have hij : i ≠ j := by
          intro hij
          exact hni (h1 (hij ▸ Finset.mem_insert_self i m))
        rw [h3 i (by rw [List.length_set]; exact hi) hni]
        exact getD_set_ne tones i j _ dfltTone hij
    | none =>
      have hstep : g.absorbPeak ts (tones, m) pk =
          (tones ++ [ActiveTone.spawn pk ts], insert tones.length m) := by
        unfold EventGenerator.absorbPeak
        rw [hf]
      rw [hstep]
      obtain ⟨h1, h2, h3⟩ := ih (tones ++ [ActiveTone.spawn pk ts]) (insert tones.length m)
      refine ⟨Finset.Subset.trans (Finset.subset_insert _ m) h1, ?_, ?_⟩
      · calc tones.length ≤ (tones ++ [ActiveTone.spawn pk ts]).length := by
              simp
          _ ≤ _ := h2
      · intro i hi hni
        rw [h3 i (by simp; omega) hni]
        exact getD_append_left tones _ i dfltTone hi

/-- Index-shift helpers for the `closeExpired` induction. -/
lemma add_shift_notmem {m : Finset ℕ} {k i : ℕ} (h : k + 1 + i ∉ m) : k + (i + 1) ∉ m := by
  rw [show k + (i + 1) = k + 1 + i from by omega]
  exact h

/-- Index-shift helpers for the `closeExpired` induction. -/
lemma add_shift_notmem' {m : Finset ℕ} {k i : ℕ} (h : k + (i + 1) ∉ m) : k + 1 + i ∉ m := by
  rw [show k + 1 + i = k + (i + 1) from by omega]
  exact h

/-- Step-2 fold (`closeExpired`) specification, proved by structural
induction: every unmatched tone within `dropout_tolerance` of its last
sighting survives; every unmatched tone past the tolerance whose
estimated duration reaches `min_tone_duration` has its closure event in
the output; and every output event is such a closure. -/
lemma closeExpired_spec (g : EventGenerator) (ts : ℚ) (matched : Finset ℕ) :
    ∀ (l : List ActiveTone) (k : ℕ),
      (∀ i, i < l.length → (k + i) ∉ matched →
        ((ts - (l.getD i dfltTone).last_seen_time ≤ g.dropout_tolerance →
            (l.getD i dfltTone) ∈ (EventGenerator.closeExpired g ts matched k l).2)
          ∧ (g.dropout_tolerance < ts - (l.getD i dfltTone).last_seen_time →
            ((l.getD i dfltTone).samples_count : ℚ) * g.chunkDuration ≥ g.min_tone_duration →
            g.closeEvent (l.getD i dfltTone) ∈ (EventGenerator.closeExpired g ts matched k l).1)))
      ∧ (∀ ev ∈ (EventGenerator.closeExpired g ts matched k l).1,
          ∃ i, i < l.length ∧ (k + i) ∉ matched
            ∧ g.dropout_tolerance < ts - (l.getD i dfltTone).last_seen_time
            ∧ ((l.getD i dfltTone).samples_count : ℚ) * g.chunkDuration ≥ g.min_tone_duration
            ∧ ev = g.closeEvent (l.getD i dfltTone)) := by
  intro l
  induction l with
  | nil =>
    intro k
    refine ⟨fun i hi => absurd hi (by simp), ?_⟩
    intro ev hev
    simp [EventGenerator.closeExpired] at hev
  | cons t rest ih =>
    intro k
    obtain ⟨ihA, ihB⟩ := ih (k + 1)
    by_cases hk : k ∈ matched
    · have hstep : EventGenerator.closeExpired g ts matched k (t :: rest) =
          ((EventGenerator.closeExpired g ts matched (k+1) rest).1,
            t :: (EventGenerator.closeExpired g ts matched (k+1) rest).2) := by
        simp only [EventGenerator.closeExpired]
        rw [if_pos hk]
      rw [hstep]
      refine ⟨?_, ?_⟩
      · rintro (_ | i) hi hni
        · exact absurd hk (by simpa using hni)
        · have := ihA i (by simpa using hi) (add_shift_notmem' hni)
          refine ⟨fun h => List.mem_cons_of_mem t ((this.1) ?_), fun h hd => (this.2) ?_ hd⟩
          · simpa using h
          · simpa using h
      · intro ev hev
        obtain ⟨i, hi, hni, hexp, hdur, hev'⟩ := ihB ev hev
        exact ⟨i + 1, by simpa using hi, add_shift_notmem hni, by simpa using hexp,
          by simpa using hdur, by simpa using hev'⟩
    · by_cases hexp : ts - t.last_seen_time > g.dropout_tolerance
      · by_cases hdur : (t.samples_count : ℚ) * g.chunkDuration ≥ g.min_tone_duration
        · have hstep : EventGenerator.closeExpired g ts matched k (t :: rest) =
              (g.closeEvent t :: (EventGenerator.closeExpired g ts matched (k+1) rest).1,
                (EventGenerator.closeExpired g ts matched (k+1) rest).2) := by
            simp only [EventGenerator.closeExpired]
            rw [if_neg hk, if_pos hexp, if_pos hdur]
          rw [hstep]
          refine ⟨?_, ?_⟩
          · rintro (_ | i) hi hni
            · refine ⟨fun h => absurd hexp (by simpa using not_lt.mpr h), ?_⟩
              intro _ _
              exact List.mem_cons_self _ _
            · have := ihA i (by simpa using hi) (add_shift_notmem' hni)
              refine ⟨fun h => (this.1) (by simpa using h),
                fun h hd => List.mem_cons_of_mem _ ((this.2) (by simpa using h) (by simpa using hd))⟩
          · intro ev hev
            rcases List.mem_cons.mp hev with hev' | hev'
            · exact ⟨0, by simp, by simpa using hk, by simpa using hexp,
                by simpa using hdur, by simpa using hev'⟩
            · obtain ⟨i, hi, hni, he, hd, heq⟩ := ihB ev hev'
              exact ⟨i + 1, by simpa using hi, add_shift_notmem hni, by simpa using he,
                by simpa using hd, by simpa using heq⟩
        · have hstep : EventGenerator.closeExpired g ts matched k (t :: rest) =
              ((EventGenerator.closeExpired g ts matched (k+1) rest).1,
                (EventGenerator.closeExpired g ts matched (k+1) rest).2) := by
            simp only [EventGenerator.closeExpired]
            rw [if_neg hk, if_pos hexp, if_neg hdur]
          rw [hstep]
          refine ⟨?_, ?_⟩
          · rintro (_ | i) hi hni
            · refine ⟨fun h => absurd hexp (by simpa using not_lt.mpr h), ?_⟩
              intro _ hd
              exact absurd hd (by simpa using hdur)
            · have := ihA i (by simpa using hi) (add_shift_notmem' hni)
              exact ⟨fun h => (this.1) (by simpa using h),
                fun h hd => (this.2) (by simpa using h) (by simpa using hd)⟩
          · intro ev hev
            obtain ⟨i, hi, hni, he, hd, heq⟩ := ihB ev hev
            exact ⟨i + 1, by simpa using hi, add_shift_notmem hni, by simpa using he,
              by simpa using hd, by simpa using heq⟩
      · have hstep : EventGenerator.closeExpired g ts matched k (t :: rest) =
            ((EventGenerator.closeExpired g ts matched (k+1) rest).1,
              t :: (EventGenerator.closeExpired g ts matched (k+1) rest).2) := by
          simp only [EventGenerator.closeExpired]
          rw [if_neg hk, if_neg hexp]
        rw [hstep]
        refine ⟨?_, ?_⟩
        · rintro (_ | i) hi hni
          · exact ⟨fun _ => List.mem_cons_self _ _,
              fun h _ => absurd h (by simpa using hexp)⟩
          · have := ihA i (by simpa using hi) (add_shift_notmem' hni)
            exact ⟨fun h => List.mem_cons_of_mem t ((this.1) (by simpa using h)),
              fun h hd => (this.2) (by simpa using h) (by simpa using hd)⟩
        · intro ev hev
          obtain ⟨i, hi, hni, he, hd, heq⟩ := ihB ev hev
          exact ⟨i + 1, by simpa using hi, add_shift_notmem hni, by simpa using he,
            by simpa using hd, by simpa using heq⟩

/-- **C3**.  For a tracked `ActiveTone` (index `i`) not re-matched by any
peak in the current `process` call: while `timestamp - last_seen_time`
has not exceeded `dropout_tolerance` the tone survives into the next
state (so a short dropout never splits one tone into two `ToneEvent`s);
once past the tolerance, its closure event — duration
`samples_count × chunk_duration`, magnitude the running maximum
(`closeEvent`) — is emitted exactly when that duration reaches
`min_tone_duration`; and every emitted event is such a closure of an
unmatched, expired, long-enough tone (short ones are silently
discarded). -/
theorem tone_dropout_bridging_and_closure
    (g : EventGenerator) (peaks : List Peak) (ts : ℚ) (i : ℕ)
    (hi : i < g.active_tones.length)
    (hnm : i ∉ (g.matchPeaks peaks ts).2) :
    ((ts - (g.active_tones.getD i dfltTone).last_seen_time ≤ g.dropout_tolerance →
        g.active_tones.getD i dfltTone ∈ (g.process peaks ts).2.active_tones)
    ∧ (g.dropout_tolerance < ts - (g.active_tones.getD i dfltTone).last_seen_time →
        ((g.active_tones.getD i dfltTone).samples_count : ℚ) * g.chunkDuration
          ≥ g.min_tone_duration →
        g.closeEvent (g.active_tones.getD i dfltTone) ∈ (g.process peaks ts).1)
    ∧ (∀ ev ∈ (g.process peaks ts).1,
        ∃ j, j < (g.matchPeaks peaks ts).1.length
          ∧ j ∉ (g.matchPeaks peaks ts).2
          ∧ g.dropout_tolerance
              < ts - ((g.matchPeaks peaks ts).1.getD j dfltTone).last_seen_time
          ∧ (((g.matchPeaks peaks ts).1.getD j dfltTone).samples_count : ℚ) * g.chunkDuration
              ≥ g.min_tone_duration
          ∧ ev = g.closeEvent ((g.matchPeaks peaks ts).1.getD j dfltTone))) := by
  obtain ⟨hsub, hlen, hpres⟩ := matchPeaks_foldl_inv g ts peaks g.active_tones ∅
  have hgetD : (g.matchPeaks peaks ts).1.getD i dfltTone = g.active_tones.getD i dfltTone :=
    hpres i hi hnm
  obtain ⟨specA, specB⟩ :=
    closeExpired_spec g ts (g.matchPeaks peaks ts).2 (g.matchPeaks peaks ts).1 0
  have hi' : i < (g.matchPeaks peaks ts).1.length := lt_of_lt_of_le hi hlen
  have hA := specA i hi' (by simpa using hnm)
  refine ⟨?_, ?_, ?_⟩
  · intro h
    have := hA.1 (by rw [hgetD]; exact h)
    rw [hgetD] at this
    exact this
  · intro h hd
    have := hA.2 (by rw [hgetD]; exact h) (by rw [hgetD]; exact hd)
    rw [hgetD] at this
    exact this
  · intro ev hev
    obtain ⟨j, hj, hjn, hje, hjd, hjeq⟩ := specB ev hev
    exact ⟨j, hj, by simpa using hjn, hje, hjd, hjeq⟩

/-- Witness for C3: a generator tracking one tone last seen at time 0
processes an empty peak list at time 0.1 s — within the 0.15 s dropout
tolerance — and the tone survives unchanged. -/
theorem tone_dropout_bridging_and_closure_witness :
    (0 < genExample.active_tones.length)
    ∧ ((0 : ℕ) ∉ (genExample.matchPeaks [] (1/10)).2)
    ∧ ((1:ℚ)/10 - (genExample.active_tones.getD 0 dfltTone).last_seen_time
        ≤ genExample.dropout_tolerance)
    ∧ genExample.active_tones.getD 0 dfltTone
        ∈ (genExample.process [] (1/10)).2.active_tones := by
  have h2 : (0 : ℕ) ∉ (genExample.matchPeaks [] (1/10)).2 := by
    simp [EventGenerator.matchPeaks]
  have h3 : (1:ℚ)/10 - (genExample.active_tones.getD 0 dfltTone).last_seen_time
      ≤ genExample.dropout_tolerance := by
    norm_num [genExample, List.getD_cons_zero]
  exact ⟨by decide, h2, h3,
    (tone_dropout_bridging_and_closure genExample [] (1/10) 0 (by decide) h2).1 h3⟩

/-- **C5** counterexample to the claim as stated: parsing a profile whose
tone segment is missing its duration range and carries an inverted
(`min > max`) frequency range succeeds, producing an `AlarmProfile` with
the duration silently defaulted to 0.1–1.0 s and the inverted frequency
range accepted verbatim — no field-identifying error of any kind. -/
theorem profile_parsing_silently_defaults :
    parseProfile badProfileData =
      { name := "Bad"
        segments := [{ type := "tone", frequency := some ⟨3000, 1000⟩,
                       min_magnitude := 5/100, duration := ⟨1/10, 1⟩ }]
        confirmation_cycles := 1
        reset_timeout := 10 }
    ∧ (1000 : ℚ) < 3000 := by
  constructor
  · rfl
  · norm_num

/-- **C5** (amended).  `_parse_profile` is total and never raises: every
missing key is silently defaulted (duration → 0.1–1.0 s, per missing
sub-key; frequency `min` → 0 and `max` → 20000; scalar duration → ±20 %;
top-level name/cycles/timeout defaults), an inverted range is accepted
unchanged, and such a `Range` then simply contains no value. -/
theorem parse_profile_total_with_defaults (sd : SegmentData) (d : ProfileData) :
    (sd.duration = none → (parseSegment sd).duration = ⟨1/10, 1⟩)
    ∧ (∀ r : RangeData, sd.duration = some (.range r) →
        (parseSegment sd).duration = ⟨r.min.getD (1/10), r.max.getD 1⟩)
    ∧ (∀ q : ℚ, sd.duration = some (.scalar q) →
        (parseSegment sd).duration = ⟨q * (4/5), q * (6/5)⟩)
    ∧ (sd.type = some "tone" → ∀ r : RangeData, sd.frequency = some (.range r) →
        (parseSegment sd).frequency = some ⟨r.min.getD 0, r.max.getD 20000⟩)
    ∧ (parseProfile d).name = d.name.getD "UnnamedProfile"
    ∧ (parseProfile d).segments = (d.segments.getD []).map parseSegment
    ∧ (parseProfile d).confirmation_cycles = d.confirmation_cycles.getD 1
    ∧ (parseProfile d).reset_timeout = d.reset_timeout.getD 10
    ∧ (∀ (r : Range) (v : ℚ), r.max < r.min → r.containsB v = false) := by
  refine ⟨?_, ?_, ?_, ?_, rfl, rfl, rfl, rfl, ?_⟩
  · intro h
    simp [parseSegment, h]
  · intro r h
    simp [parseSegment, h]
  · intro q h
    simp [parseSegment, h]
  · intro ht r h
    simp [parseSegment, h, ht]
  · intro r v h
    rcases le_or_lt r.min v with h1 | h1
    · have h2 : ¬ v ≤ r.max := by linarith
      simp [Range.containsB, h2]
    · simp [Range.containsB, not_le.mpr h1]

/-- Witness for C5 (amended), at the concrete bad profile datum: the
absent duration defaults to 0.1–1.0 s, and the inverted range 3000–1000
contains nothing (e.g. not 2000). -/
theorem parse_profile_total_with_defaults_witness :
    badSegmentData.duration = none
    ∧ (parseSegment badSegmentData).duration = ⟨1/10, 1⟩
    ∧ ((1000 : ℚ) < 3000)
    ∧ Range.containsB ⟨3000, 1000⟩ 2000 = false := by
  refine ⟨rfl, ?_, by norm_num, ?_⟩
  · exact (parse_profile_total_with_defaults badSegmentData badProfileData).1 rfl
  · exact (parse_profile_total_with_defaults badSegmentData badProfileData).2.2.2.2.2.2.2.2
      ⟨3000, 1000⟩ 2000 (by norm_num)

/-- **C9**.  `SpectralMonitor.process` returns the empty peak list,
without raising, for every chunk whose length differs from the configured
chunk size (no padding), and for every chunk whose magnitude spectrum has
maximum zero — in particular an all-zero chunk yields no peaks. -/
theorem monitor_edge_cases_empty
    (m : SpectralMonitor) (fftMag : List ℤ → List ℚ) (chunk : List ℤ) :
    (chunk.length ≠ m.chunk_size → m.processWith fftMag chunk = [])
    ∧ (listMax (fftMag chunk) = 0 → m.processWith fftMag chunk = []) := by
  constructor
  · intro h
    unfold SpectralMonitor.processWith
    rw [if_pos h]
  · intro h
    unfold SpectralMonitor.processWith
    by_cases hl : chunk.length ≠ m.chunk_size
    · rw [if_pos hl]
    · rw [if_neg hl]
      simp [h]

/-- Witness for C9: a 3-sample chunk against an 8-sample configuration,
and a correct-length chunk whose spectrum is all-zero. -/
theorem monitor_edge_cases_empty_witness :
    (([1, 2, 3] : List ℤ).length ≠ (⟨44100, 8, 5/100, 3/2⟩ : SpectralMonitor).chunk_size)
    ∧ SpectralMonitor.processWith ⟨44100, 8, 5/100, 3/2⟩ (fun _ => [0, 0, 5, 0, 0]) [1, 2, 3] = []
    ∧ listMax ((fun _ => ([0, 0, 0, 0, 0] : List ℚ)) ([0, 0, 0, 0, 0, 0, 0, 0] : List ℤ)) = 0
    ∧ SpectralMonitor.processWith ⟨44100, 8, 5/100, 3/2⟩ (fun _ => [0, 0, 0, 0, 0])
        [0, 0, 0, 0, 0, 0, 0, 0] = [] := by
  have h1 : (([1, 2, 3] : List ℤ).length ≠ (⟨44100, 8, 5/100, 3/2⟩ : SpectralMonitor).chunk_size) := by
    decide
  have h2 : listMax ((fun _ => ([0, 0, 0, 0, 0] : List ℚ)) ([0, 0, 0, 0, 0, 0, 0, 0] : List ℤ)) = 0 := by
    decide
  exact ⟨h1,
    (monitor_edge_cases_empty ⟨44100, 8, 5/100, 3/2⟩ (fun _ => [0, 0, 5, 0, 0]) [1, 2, 3]).1 h1,
    h2,
    (monitor_edge_cases_empty ⟨44100, 8, 5/100, 3/2⟩ (fun _ => [0, 0, 0, 0, 0])
      [0, 0, 0, 0, 0, 0, 0, 0]).2 h2⟩

/-- **C6** counterexample to the claim as stated: on an 8-sample
configuration with the magnitude spectrum `[0, 0, 5, 0, 0]` (maximum 5,
nonzero), the returned peak carries magnitude 5 — the raw spectrum value
at its bin — which exceeds 1, so peak magnitudes are not normalized to
the 0–1 range and the spectrum's maximum bin does not map to 1. -/
theorem peak_magnitude_not_normalized :
    SpectralMonitor.processWith ⟨44100, 8, 5/100, 3/2⟩ (fun _ => [0, 0, 5, 0, 0])
      [1, 2, 3, 4, 5, 6, 7, 8] = [⟨11025, 5, 2⟩]
    ∧ ¬ ((5 : ℚ) ≤ 1) := by
  constructor
  · norm_num [SpectralMonitor.processWith, SpectralMonitor.peakAt, SpectralMonitor.freqBin,
      listMax, List.range', List.filterMap_cons, List.mergeSort_singleton,
      List.getD_cons_zero, List.getD_cons_succ]
  · norm_num

/-- **C6** (amended).  Every peak returned by `SpectralMonitor.process`
carries the *raw* magnitude-spectrum value at its bin (the normalized
spectrum computed at dsp.py lines 60–62 is never used): its magnitude
equals the spectrum at `bin_index`, is at least the absolute floor
`min_magnitude`, and its frequency is the bin frequency. -/
theorem peak_magnitudes_are_raw_spectrum_values
    (m : SpectralMonitor) (fftMag : List ℤ → List ℚ) (chunk : List ℤ) (pk : Peak)
    (hpk : pk ∈ m.processWith fftMag chunk) :
    pk.magnitude = (fftMag chunk).getD pk.bin_index 0
    ∧ m.min_magnitude ≤ pk.magnitude
    ∧ pk.frequency = m.freqBin pk.bin_index := by
  unfold SpectralMonitor.processWith at hpk
  by_cases hl : chunk.length ≠ m.chunk_size
  · rw [if_pos hl] at hpk
    exact absurd hpk (List.not_mem_nil pk)
  · rw [if_neg hl] at hpk
    by_cases hz : listMax (fftMag chunk) = 0
    · rw [if_pos hz] at hpk
      exact absurd hpk (List.not_mem_nil pk)
    · rw [if_neg hz] at hpk
      have hmem : pk ∈ (List.range' 2 ((fftMag chunk).length - 4)).filterMap
          (m.peakAt (fftMag chunk)) :=
        List.mem_mergeSort.mp (List.take_subset 5 _ hpk)
      obtain ⟨i, _, hpeak⟩ := List.mem_filterMap.mp hmem
      unfold SpectralMonitor.peakAt at hpeak
      by_cases c1 : (fftMag chunk).getD i 0 < m.min_magnitude
      · rw [if_pos c1] at hpeak
        exact absurd hpeak (by simp)
      · rw [if_neg c1] at hpeak
        by_cases c2 : (fftMag chunk).getD i 0 > (fftMag chunk).getD (i - 1) 0
            ∧ (fftMag chunk).getD i 0 > (fftMag chunk).getD (i + 1) 0
        · rw [if_pos c2] at hpeak
          by_cases c3 : (fftMag chunk).getD i 0 /
              (if ((fftMag chunk).getD (i - 2) 0 + (fftMag chunk).getD (i - 1) 0
                  + (fftMag chunk).getD (i + 1) 0 + (fftMag chunk).getD (i + 2) 0) / 4 = 0
                then 1 / 1000000
                else ((fftMag chunk).getD (i - 2) 0 + (fftMag chunk).getD (i - 1) 0
                  + (fftMag chunk).getD (i + 1) 0 + (fftMag chunk).getD (i + 2) 0) / 4)
              > m.min_sharpness
          · rw [if_pos c3] at hpeak
            obtain rfl := (Option.some.injEq _ _).mp hpeak
            exact ⟨rfl, not_lt.mp c1, rfl⟩
          · rw [if_neg c3] at hpeak
            exact absurd hpeak (by simp)
        · rw [if_neg c2] at hpeak
          exact absurd hpeak (by simp)

/-- Witness for C6 (amended): the magnitude-5 peak of the concrete
spectrum `[0, 0, 5, 0, 0]` indeed carries the raw spectrum value at
bin 2. -/
theorem peak_magnitudes_are_raw_spectrum_values_witness :
    (⟨11025, 5, 2⟩ : Peak) ∈ SpectralMonitor.processWith ⟨44100, 8, 5/100, 3/2⟩
        (fun _ => [0, 0, 5, 0, 0]) [1, 2, 3, 4, 5, 6, 7, 8]
    ∧ ((⟨11025, 5, 2⟩ : Peak).magnitude
        = ((fun _ => ([0, 0, 5, 0, 0] : List ℚ)) ([1, 2, 3, 4, 5, 6, 7, 8] : List ℤ)).getD
            (⟨11025, 5, 2⟩ : Peak).bin_index 0
      ∧ (⟨44100, 8, 5/100, 3/2⟩ : SpectralMonitor).min_magnitude
          ≤ (⟨11025, 5, 2⟩ : Peak).magnitude
      ∧ (⟨11025, 5, 2⟩ : Peak).frequency
          = (⟨44100, 8, 5/100, 3/2⟩ : SpectralMonitor).freqBin (⟨11025, 5, 2⟩ : Peak).bin_index) := by
  have hmem : (⟨11025, 5, 2⟩ : Peak) ∈ SpectralMonitor.processWith ⟨44100, 8, 5/100, 3/2⟩
      (fun _ => [0, 0, 5, 0, 0]) [1, 2, 3, 4, 5, 6, 7, 8] := by
    norm_num [SpectralMonitor.processWith, SpectralMonitor.peakAt, SpectralMonitor.freqBin,
      listMax, List.range', List.filterMap_cons, List.mergeSort_singleton,
      List.getD_cons_zero, List.getD_cons_succ]
  exact ⟨hmem, peak_magnitudes_are_raw_spectrum_values ⟨44100, 8, 5/100, 3/2⟩
    (fun _ => [0, 0, 5, 0, 0]) [1, 2, 3, 4, 5, 6, 7, 8] ⟨11025, 5, 2⟩ hmem⟩

/-- **C7**.  Determinism of the core pipeline: two runs of a freshly
constructed pipeline (same monitor parameters, same profiles, same
spectrum function) over equal chunk/timestamp streams produce identical
`PatternMatchEvent` sequences.  The embedded components are pure
functions of their inputs and carried state — the source's `process`
paths consult no clock or other hidden state (`time` is imported by
generator.py and matcher.py but never called) — so the run is a function
of the input stream alone. -/
theorem pipeline_deterministic
    (fftMag : List ℤ → List ℚ) (sample_rate chunk_size : ℕ) (profiles : List AlarmProfile)
    (input1 input2 : List (List ℤ × ℚ)) (h : input1 = input2) :
    (Pipeline.run fftMag (freshPipeline sample_rate chunk_size profiles) input1).1
      = (Pipeline.run fftMag (freshPipeline sample_rate chunk_size profiles) input2).1 := by
  rw [h]

/-- Witness for C7 at a concrete input stream. -/
theorem pipeline_deterministic_witness :
    ([([1, 2, 3], (0 : ℚ))] : List (List ℤ × ℚ)) = [([1, 2, 3], (0 : ℚ))]
    ∧ (Pipeline.run (fun _ => []) (freshPipeline 44100 8 [complexSiren]) [([1, 2, 3], 0)]).1
      = (Pipeline.run (fun _ => []) (freshPipeline 44100 8 [complexSiren]) [([1, 2, 3], 0)]).1 :=
  ⟨rfl, pipeline_deterministic (fun _ => []) 44100 8 [complexSiren]
    [([1, 2, 3], 0)] [([1, 2, 3], 0)] rfl⟩

/-- **C8**.  On a call with a primary detection, the analysis result is
invalid exactly when at least one of the four checks (energy ratio, peak
sharpness, frequency stability once ≥ 3 samples, magnitude consistency
once ≥ 3 samples) fails; each failing check contributes exactly its
reason; and both rolling histories are extended (never cleared) — they
are cleared exactly on calls with no primary detection. -/
theorem analyzer_validity_and_history
    (s : SpectralAnalyzer) (r : ScreenerResult) :
    (r.detected = true →
      (((s.analyze r).1.is_valid = false ↔
          (analyzerFailEnergy s.profile r = true
            ∨ analyzerFailSharp s.profile r = true
            ∨ analyzerFailFreq s.profile (pushCap 10 s.freq_history r.dominant_freq) = true
            ∨ analyzerFailMag s.profile (pushCap 5 s.mag_history r.magnitude) = true))
        ∧ (Reason.low_energy_ratio ∈ (s.analyze r).1.reasons ↔
            analyzerFailEnergy s.profile r = true)
        ∧ (Reason.low_sharpness ∈ (s.analyze r).1.reasons ↔
            analyzerFailSharp s.profile r = true)
        ∧ (Reason.unstable_frequency ∈ (s.analyze r).1.reasons ↔
            analyzerFailFreq s.profile (pushCap 10 s.freq_history r.dominant_freq) = true)
        ∧ (Reason.inconsistent_magnitude ∈ (s.analyze r).1.reasons ↔
            analyzerFailMag s.profile (pushCap 5 s.mag_history r.magnitude) = true)
        ∧ (s.analyze r).2.freq_history = pushCap 10 s.freq_history r.dominant_freq
        ∧ (s.analyze r).2.mag_history = pushCap 5 s.mag_history r.magnitude))
    ∧ (r.detected = false →
      s.analyze r = (⟨false, [.no_primary_detection]⟩,
        { s with freq_history := [], mag_history := [] })) := by
  constructor
  · intro hd
    have hne : ¬ r.detected = false := by simp [hd]
    simp only [SpectralAnalyzer.analyze, if_neg hne]
    cases hf1 : analyzerFailEnergy s.profile r <;>
      cases hf2 : analyzerFailSharp s.profile r <;>
      cases hf3 : analyzerFailFreq s.profile (pushCap 10 s.freq_history r.dominant_freq) <;>
      cases hf4 : analyzerFailMag s.profile (pushCap 5 s.mag_history r.magnitude) <;>
      simp [hf1, hf2, hf3, hf4]
  · intro hd
    simp only [SpectralAnalyzer.analyze, if_pos hd]

/-- Witness for C8: a detected candidate on a fresh analyzer — invalid
because the energy-ratio check fails — and an undetected one, which
clears the histories. -/
theorem analyzer_validity_and_history_witness :
    ((⟨true, [1, 1], [0], 0, 440, 1/2⟩ : ScreenerResult).detected = true
      ∧ (((⟨⟨1/2, 2, 10, 1/2⟩, [], []⟩ : SpectralAnalyzer).analyze
            ⟨true, [1, 1], [0], 0, 440, 1/2⟩).1.is_valid = false ↔
          (analyzerFailEnergy ⟨1/2, 2, 10, 1/2⟩ ⟨true, [1, 1], [0], 0, 440, 1/2⟩ = true
            ∨ analyzerFailSharp ⟨1/2, 2, 10, 1/2⟩ ⟨true, [1, 1], [0], 0, 440, 1/2⟩ = true
            ∨ analyzerFailFreq ⟨1/2, 2, 10, 1/2⟩ (pushCap 10 [] 440) = true
            ∨ analyzerFailMag ⟨1/2, 2, 10, 1/2⟩ (pushCap 5 [] (1/2)) = true)))
    ∧ ((⟨false, [], [], 0, 0, 0⟩ : ScreenerResult).detected = false
      ∧ (⟨⟨1/2, 2, 10, 1/2⟩, [440], [1/2]⟩ : SpectralAnalyzer).analyze ⟨false, [], [], 0, 0, 0⟩
          = (⟨false, [.no_primary_detection]⟩, ⟨⟨1/2, 2, 10, 1/2⟩, [], []⟩)) := by
  refine ⟨⟨rfl, ?_⟩, ⟨rfl, ?_⟩⟩
  · exact ((analyzer_validity_and_history ⟨⟨1/2, 2, 10, 1/2⟩, [], []⟩
      ⟨true, [1, 1], [0], 0, 440, 1/2⟩).1 rfl).1
  · exact (analyzer_validity_and_history ⟨⟨1/2, 2, 10, 1/2⟩, [440], [1/2]⟩
      ⟨false, [], [], 0, 0, 0⟩).2 rfl

end AlarmDetector
